import Mathlib

/-!
Verification of the streaming/pagination layer of a CouchDB client
(`couch_rs`): the `_changes` continuous-feed state machine
(`src/couch_rs/src/changes.rs`, `ChangesStream::poll_next`) and the
bookmark-driven batched find loop
(`src/couch_rs/src/database.rs`, `Database::find_batched`).

The embedding is shallow: the asynchronous environment (HTTP transport,
line decoder, JSON event parser, mpsc channel receiver) is represented by
explicit scripts of outcomes, and the Rust state machines are translated
into total Lean functions over those scripts.  Machine integers (`u32`,
`u64` row counters) are modelled as `Nat`; the counters only ever grow by
page sizes, far below any wrap-around.
-/

namespace CouchRs

/-- `serde_json::Value` sequence tokens and bookmarks are opaque:
only equality is ever used on them. -/
abbrev Seq := String

/-- `types/changes.rs`: `pub struct Change { pub rev: String }`. -/
structure Change where
  rev : String
deriving DecidableEq, Repr

/-- `types/changes.rs`: `ChangeEvent { seq, id, changes, deleted, doc }`. -/
structure ChangeEvent where
  seq : Seq
  id : String
  changes : List Change
  deleted : Bool
  doc : Option String
deriving DecidableEq, Repr

/-- `types/changes.rs`: `FinishedEvent { last_seq, pending }`. -/
structure FinishedEvent where
  last_seq : Seq
  pending : Option Nat
deriving DecidableEq, Repr

/-- `types/changes.rs`: `enum Event { Change(ChangeEvent), Finished(FinishedEvent) }`. -/
inductive Event
  | change (e : ChangeEvent)
  | finished (e : FinishedEvent)
deriving DecidableEq, Repr

/-- HTTP status codes (the `u16` inside `http::StatusCode`). -/
abbrev StatusCode := Nat

/-- `http::StatusCode::is_success`: 2xx. -/
def isSuccess (s : StatusCode) : Bool := 200 ≤ s && s ≤ 299

/-- `http::StatusCode::canonical_reason`: the canonical reason phrase of the
standard registered status codes; `none` for any other code in 100..=999. -/
def canonicalReason (s : StatusCode) : Option String :=
  match s with
  | 100 => some "Continue"
  | 101 => some "Switching Protocols"
  | 102 => some "Processing"
  | 200 => some "OK"
  | 201 => some "Created"
  | 202 => some "Accepted"
  | 203 => some "Non Authoritative Information"
  | 204 => some "No Content"
  | 205 => some "Reset Content"
  | 206 => some "Partial Content"
  | 207 => some "Multi-Status"
  | 208 => some "Already Reported"
  | 226 => some "IM Used"
  | 300 => some "Multiple Choices"
  | 301 => some "Moved Permanently"
  | 302 => some "Found"
  | 303 => some "See Other"
  | 304 => some "Not Modified"
  | 305 => some "Use Proxy"
  | 307 => some "Temporary Redirect"
  | 308 => some "Permanent Redirect"
  | 400 => some "Bad Request"
  | 401 => some "Unauthorized"
  | 402 => some "Payment Required"
  | 403 => some "Forbidden"
  | 404 => some "Not Found"
  | 405 => some "Method Not Allowed"
  | 406 => some "Not Acceptable"
  | 407 => some "Proxy Authentication Required"
  | 408 => some "Request Timeout"
  | 409 => some "Conflict"
  | 410 => some "Gone"
  | 411 => some "Length Required"
  | 412 => some "Precondition Failed"
  | 413 => some "Payload Too Large"
  | 414 => some "URI Too Long"
  | 415 => some "Unsupported Media Type"
  | 416 => some "Range Not Satisfiable"
  | 417 => some "Expectation Failed"
  | 418 => some "I'm a teapot"
  | 421 => some "Misdirected Request"
  | 422 => some "Unprocessable Entity"
  | 423 => some "Locked"
  | 424 => some "Failed Dependency"
  | 426 => some "Upgrade Required"
  | 428 => some "Precondition Required"
  | 429 => some "Too Many Requests"
  | 431 => some "Request Header Fields Too Large"
  | 451 => some "Unavailable For Legal Reasons"
  | 500 => some "Internal Server Error"
  | 501 => some "Not Implemented"
  | 502 => some "Bad Gateway"
  | 503 => some "Service Unavailable"
  | 504 => some "Gateway Timeout"
  | 505 => some "HTTP Version Not Supported"
  | 506 => some "Variant Also Negotiates"
  | 507 => some "Insufficient Storage"
  | 508 => some "Loop Detected"
  | 510 => some "Not Extended"
  | 511 => some "Network Authentication Required"
  | _ => none

/-- `error.rs`: `ErrorDetails { id, status, message }` (the `upstream`
source pointer carries no behaviour). -/
structure ErrorDetails where
  id : Option String
  status : StatusCode
  message : String
deriving DecidableEq, Repr

/-- `error.rs`: `enum CouchError`. -/
inductive CouchError
  | operationFailed (d : ErrorDetails)
  | invalidJson (message : String)
  | malformedUrl (message : String)
deriving DecidableEq, Repr

/-- `error.rs`: `CouchError::new(message, status)`. -/
def CouchError.new (message : String) (status : StatusCode) : CouchError :=
  .operationFailed ⟨none, status, message⟩

/-! ## The changes-feed environment

`ChangesStream::poll_next` consumes two kinds of external answers: the
outcome of the `get_changes` request future (in `Requesting`), and the
items of the line stream over the response body (in `Reading`).  A body
line, once read, is either empty (`line.is_empty()`) or handed to
`serde_json::from_str::<Event>`; the parser being an external collaborator,
we record its verdict directly. -/

/-- The verdict on one successfully read body line. -/
inductive LineContent
  | empty
  | parsed (e : Event)
  | malformed (message : String)
deriving DecidableEq, Repr

/-- A `reqwest::Error` as observed by the code: its `is_timeout()` flag,
its `status()` and its `to_string()`. -/
structure ReqwestError where
  isTimeout : Bool
  status : Option StatusCode
  msg : String
deriving DecidableEq, Repr

/-- An `io::Error` produced by the line stream: either one wrapping a
`reqwest::Error` (the `bytes_stream` errors are mapped into `io::Error`,
and `err.get_ref().and_then(downcast_ref::<reqwest::Error>)` recovers
them), or any other I/O error (`downcast` yields `None`), of which only
the `Display` text is used. -/
inductive IoError
  | reqwest (e : ReqwestError)
  | other (msg : String)
deriving DecidableEq, Repr

/-- One item of the body line stream: `Some(Ok(line))` or `Some(Err(e))`;
the end of the list models `None` (body exhausted). -/
inductive ReadItem
  | ok (l : LineContent)
  | err (e : IoError)
deriving DecidableEq, Repr

/-- The transport's answer to one `get_changes` request: the future
resolves to `Err` or to a response with a status and a body line stream. -/
inductive RequestOutcome
  | fail (e : CouchError)
  | resp (status : StatusCode) (body : List ReadItem)
deriving DecidableEq, Repr

/-- How a run of the stream ended. -/
inductive Terminal
  | done                       -- `Poll::Ready(None)`: end of stream
  | error (e : CouchError)     -- `Poll::Ready(Some(Err(e)))`
  | panicked                   -- `canonical_reason().unwrap()` on `None`
  | pending                    -- the environment script is exhausted
deriving DecidableEq, Repr

/-- The observable behaviour of driving the stream to completion:
every delivered event paired with the value of `last_seq` right after its
delivery, the `since` parameter of every issued `_changes` request
(`params.insert("since", seq)` happens only when `last_seq` is `Some`),
the final `last_seq`, and how the run ended. -/
structure RunResult where
  events : List (ChangeEvent × Option Seq)
  requests : List (Option Seq)
  lastSeq : Option Seq
  term : Terminal
deriving DecidableEq, Repr

/-- What draining one response body (one `Reading` phase) ends in. -/
inductive BodyNext
  | toIdle                   -- back to `ChangesStreamState::Idle`
  | done                     -- `Poll::Ready(None)`
  | error (e : CouchError)   -- `Poll::Ready(Some(Err(e)))`
deriving DecidableEq, Repr

/-- The events delivered while draining one body, the `last_seq` after
each of them, the final `last_seq`, and how the phase ended. -/
structure BodyResult where
  events : List (ChangeEvent × Option Seq)
  lastSeq : Option Seq
  next : BodyNext
deriving DecidableEq, Repr

/-- `ChangesStreamState::Reading`: poll the line stream until it leaves
the state.  `None` (body exhausted) → back to `Idle`.  `Some(Err(e))`: a
reqwest timeout in infinite mode → `Idle`; any other reqwest error →
terminal error with the error's status (500 when absent); a non-reqwest
I/O error → terminal error with status 500.  An empty line is skipped
(`continue`).  A line parsing to `Change` sets `last_seq := event.seq`
and yields the event; one parsing to `Finished` sets
`last_seq := event.last_seq` and either ends the stream (not infinite) or
goes back to `Idle` (infinite), dropping the rest of the body; a parse
error is a terminal `InvalidJson` error. -/
def readBody (infinite : Bool) (lastSeq : Option Seq) :
    List ReadItem → BodyResult
  | [] => ⟨[], lastSeq, .toIdle⟩
  | item :: rest =>
    match item with
    | .err (.reqwest e) =>
      if e.isTimeout && infinite then ⟨[], lastSeq, .toIdle⟩
      else ⟨[], lastSeq, .error (CouchError.new e.msg (e.status.getD 500))⟩
    | .err (.other msg) => ⟨[], lastSeq, .error (CouchError.new msg 500)⟩
    | .ok .empty => readBody infinite lastSeq rest
    | .ok (.parsed (.change ev)) =>
      let r := readBody infinite (some ev.seq) rest
      { r with events := (ev, some ev.seq) :: r.events }
    | .ok (.parsed (.finished ev)) =>
      if infinite then ⟨[], some ev.last_seq, .toIdle⟩
      else ⟨[], some ev.last_seq, .done⟩
    | .ok (.malformed msg) => ⟨[], lastSeq, .error (.invalidJson msg)⟩

/-- `ChangesStreamState::Idle` (and the `Requesting` state it becomes):
clone the params, add `since=<last_seq>` when present, issue the request
and await its outcome.  `Err` propagates; on `Ok`, a non-success status
produces `CouchError::new(status.canonical_reason().unwrap(), status)` —
a panic when the reason is `None` — and a success wraps the body in the
line decoder, reads it, and on falling back to `Idle` loops. -/
def runIdle (infinite : Bool) (lastSeq : Option Seq) :
    List RequestOutcome → RunResult
  | [] => ⟨[], [lastSeq], lastSeq, .pending⟩
  | outcome :: rest =>
    match outcome with
    | .fail e => ⟨[], [lastSeq], lastSeq, .error e⟩
    | .resp status body =>
      if isSuccess status then
        let b := readBody infinite lastSeq body
        match b.next with
        | .toIdle =>
          let r := runIdle infinite b.lastSeq rest
          ⟨b.events ++ r.events, lastSeq :: r.requests, r.lastSeq, r.term⟩
        | .done => ⟨b.events, [lastSeq], b.lastSeq, .done⟩
        | .error e => ⟨b.events, [lastSeq], b.lastSeq, .error e⟩
      else
        match canonicalReason status with
        | some reason => ⟨[], [lastSeq], lastSeq, .error (CouchError.new reason status)⟩
        | none => ⟨[], [lastSeq], lastSeq, .panicked⟩

/-- The whole remaining run of a stream currently in the `Reading` state:
drain the current body, then (when the body falls back to `Idle`) keep
driving the request loop. -/
def runReading (infinite : Bool) (lastSeq : Option Seq)
    (body : List ReadItem) (script : List RequestOutcome) : RunResult :=
  let b := readBody infinite lastSeq body
  match b.next with
  | .toIdle =>
    let r := runIdle infinite b.lastSeq script
    ⟨b.events ++ r.events, r.requests, r.lastSeq, r.term⟩
  | .done => ⟨b.events, [], b.lastSeq, .done⟩
  | .error e => ⟨b.events, [], b.lastSeq, .error e⟩

/-! ## The batched find loop

`Database::find_batched` (`database.rs`) repeatedly calls `self.find`
with a cloned query whose `bookmark` is overwritten each round, counts
and forwards each accepted `DocumentCollection` into a tokio mpsc
`Sender`, and stops on: a fetch error (propagated), an empty page, an
absent/unchanged bookmark, a failed send (receiver dropped), or a reached
`max_results` budget. -/

/-- `types/find.rs`: `FindQuery`.  The selector/sort/field payloads carry
no behaviour in the loop and are kept opaque. -/
structure FindQuery where
  selector : String
  limit : Option Nat
  skip : Option Nat
  sort : List String
  fields : Option (List String)
  use_index : Option String
  r : Option Int
  bookmark : Option String
  update : Option Bool
  stable : Option Bool
  stale : Option String
  execution_stats : Option Bool
deriving DecidableEq, Repr

/-- `document.rs`: `DocumentCollection<T>`.  Both `new` and
`new_from_documents` set `total_rows` to `rows.len()`; the loop reads
only `total_rows` and `bookmark` and forwards the value whole. -/
structure DocumentCollection (T : Type) where
  offset : Option Nat
  rows : List T
  total_rows : Nat
  bookmark : Option String
deriving DecidableEq, Repr

/-- The collections `self.find` actually hands the loop: `total_rows`
equals the number of rows (`new_from_documents` sets it to `docs.len()`,
`default()` to 0). -/
def DocumentCollection.wf {T : Type} (c : DocumentCollection T) : Prop :=
  c.total_rows = c.rows.length

/-- The outcome of one `self.find(&segment_query)` call. -/
inductive FindOutcome (T : Type)
  | fail (e : CouchError)
  | ok (docs : DocumentCollection T)
deriving DecidableEq, Repr

/-- The receiver side of the bounded channel: `none` = never dropped,
`some k` = the first `k` sends succeed and every later send fails
(`tx.send` errs exactly when the receiver has been dropped, and a dropped
receiver stays dropped). -/
def sendOk (recvOpenFor : Option Nat) (attempts : Nat) : Bool :=
  match recvOpenFor with
  | none => true
  | some k => attempts < k

/-- `find_batched`'s return value: `Ok(results)`, `Err(e)`, or the
environment script ran out while the loop wanted another response. -/
inductive BatchResult
  | ok (results : Nat)
  | err (e : CouchError)
  | outOfScript
deriving DecidableEq, Repr

/-- The observable behaviour of one `find_batched` run: the pages that
went through the channel (in order), the `segment_query` of every issued
`find` request, the `total_rows` of the page whose `tx.send` failed
(0 when no send failed), and the return value. -/
structure BatchRun (T : Type) where
  sent : List (DocumentCollection T)
  requests : List FindQuery
  failedSendRows : Nat
  result : BatchResult
deriving DecidableEq, Repr

/-- The `loop` body of `find_batched`, one iteration per script entry:

* `segment_query = query.clone()` with `bookmark` overwritten;
* `self.find` fails → `break Some(err)`;
* `total_rows == 0` → `break None`;
* response bookmark present and ≠ the sent one → `bookmark.replace(..)`;
  otherwise `break None`;
* `results += total_rows`; `tx.send(all_docs)` — on failure `break None`
  (the page is counted but not delivered);
* `max_results > 0 && results >= max_results` → `break None`. -/
def findLoop {T : Type} (query : FindQuery) (bookmark : Option String)
    (results : Nat) (attempts : Nat) (recvOpenFor : Option Nat)
    (max_results : Nat) (script : List (FindOutcome T)) : BatchRun T :=
  let segment_query := { query with bookmark := bookmark }
  match script with
  | [] => ⟨[], [segment_query], 0, .outOfScript⟩
  | .fail e :: _ => ⟨[], [segment_query], 0, .err e⟩
  | .ok all_docs :: rest =>
    if all_docs.total_rows = 0 then
      ⟨[], [segment_query], 0, .ok results⟩
    else if all_docs.bookmark.isSome ∧ all_docs.bookmark ≠ bookmark then
      let results' := results + all_docs.total_rows
      if sendOk recvOpenFor attempts then
        if max_results > 0 ∧ results' ≥ max_results then
          ⟨[all_docs], [segment_query], 0, .ok results'⟩
        else
          let r := findLoop query all_docs.bookmark results' (attempts + 1)
            recvOpenFor max_results rest
          { r with
            sent := all_docs :: r.sent
            requests := segment_query :: r.requests }
      else
        ⟨[], [segment_query], all_docs.total_rows, .ok results'⟩
    else
      ⟨[], [segment_query], 0, .ok results⟩

/-- `Database::find_batched(query, tx, batch_size, max_results)`:
effective page size `limit = if batch_size > 0 { batch_size } else { 1000 }`,
`query.limit = Some(limit)`, then the loop starting from no bookmark,
zero rows counted. -/
def find_batched {T : Type} (query : FindQuery) (recvOpenFor : Option Nat)
    (batch_size : Nat) (max_results : Nat)
    (script : List (FindOutcome T)) : BatchRun T :=
  let limit := if batch_size > 0 then batch_size else 1000
  findLoop { query with limit := some limit } none 0 0 recvOpenFor
    max_results script

/-- Total number of rows delivered through the channel in a run. -/
def deliveredRows {T : Type} (run : BatchRun T) : Nat :=
  (run.sent.map (·.total_rows)).sum

/-! ## Helper definitions for the claims -/

/-- The change event carried by a body line, if any. -/
def changeOf : ReadItem → Option ChangeEvent
  | .ok (.parsed (.change ev)) => some ev
  | _ => none

/-- The change events among a list of body lines, in line order. -/
def changeEvents (body : List ReadItem) : List ChangeEvent :=
  body.filterMap changeOf

/-- A body line is a heartbeat or a line decoding to a `Change` event. -/
def heartbeatOrChange (it : ReadItem) : Prop :=
  it = .ok .empty ∨ ∃ ev, it = .ok (.parsed (.change ev))

/-- A sample page of `n` rows carrying bookmark `b`, shaped the way
`DocumentCollection::new_from_documents` builds pages for `find`. -/
def pageOf (n : Nat) (b : Option String) : DocumentCollection Nat :=
  { offset := some 0, rows := List.replicate n 0, total_rows := n, bookmark := b }

/-- A base query with every optional field unset (the selector payload is
opaque to the loop). -/
def baseQuery : FindQuery :=
  { selector := "find_all", limit := none, skip := none, sort := [],
    fields := none, use_index := none, r := none, bookmark := none,
    update := none, stable := none, stale := none, execution_stats := none }

/-- Sample change events used by concrete runs. -/
def sampleEvent1 : ChangeEvent :=
  { seq := "seq-1", id := "doc-1", changes := [⟨"1-abc"⟩], deleted := false, doc := none }

/-- A second sample change event. -/
def sampleEvent2 : ChangeEvent :=
  { seq := "seq-2", id := "doc-2", changes := [⟨"1-def"⟩], deleted := false, doc := none }

/-- A transport idle-timeout as seen through the `io::Error` wrapper. -/
def idleTimeout : ReqwestError :=
  { isTimeout := true, status := none, msg := "operation timed out" }

/-! ## Shared lemmas -/

/-- Draining a body whose lines are all heartbeats or change lines yields
exactly the change events in line order, pairing each with its own seq as
the `last_seq` in force right after its delivery, and falls back to
`Idle` at the end. -/
theorem readBody_heartbeat_change (infinite : Bool) (s0 : Option Seq)
    (body : List ReadItem) (h : ∀ it ∈ body, heartbeatOrChange it) :
    (readBody infinite s0 body).events
        = (changeEvents body).map (fun ev => (ev, some ev.seq))
      ∧ (readBody infinite s0 body).next = .toIdle := by
  induction body generalizing s0 with
  | nil => simp [readBody, changeEvents]
  | cons it rest ih =>
    have hit := h it (List.mem_cons_self it rest)
    have hrest : ∀ x ∈ rest, heartbeatOrChange x :=
      fun x hx => h x (List.mem_cons_of_mem _ hx)
    rcases hit with h1 | ⟨ev, h2⟩
    · subst h1
      simpa [readBody, changeEvents, changeOf] using ih s0 hrest
    · subst h2
      have hi := ih (some ev.seq) hrest
      simp [readBody, changeEvents, changeOf, hi.1, hi.2]

/-- Script exhausted: the loop issued one more request that got no
answer. -/
theorem findLoop_nil {T : Type} (query : FindQuery) (bm : Option String)
    (res att : Nat) (recv : Option Nat) (mr : Nat) :
    findLoop (T := T) query bm res att recv mr []
      = ⟨[], [{ query with bookmark := bm }], 0, .outOfScript⟩ := rfl

/-- A failed fetch propagates the error, sending nothing. -/
theorem findLoop_fail {T : Type} (query : FindQuery) (bm : Option String)
    (res att : Nat) (recv : Option Nat) (mr : Nat) (e : CouchError)
    (rest : List (FindOutcome T)) :
    findLoop query bm res att recv mr (.fail e :: rest)
      = ⟨[], [{ query with bookmark := bm }], 0, .err e⟩ := rfl

/-- An empty page stops the loop cleanly. -/
theorem findLoop_empty_page {T : Type} (query : FindQuery)
    (bm : Option String) (res att : Nat) (recv : Option Nat) (mr : Nat)
    (docs : DocumentCollection T) (rest : List (FindOutcome T))
    (h0 : docs.total_rows = 0) :
    findLoop query bm res att recv mr (.ok docs :: rest)
      = ⟨[], [{ query with bookmark := bm }], 0, .ok res⟩ := by
  simp [findLoop, h0]

/-- A non-empty page whose bookmark is absent or unchanged stops the loop
cleanly, sending and counting nothing. -/
theorem findLoop_stale {T : Type} (query : FindQuery) (bm : Option String)
    (res att : Nat) (recv : Option Nat) (mr : Nat)
    (docs : DocumentCollection T) (rest : List (FindOutcome T))
    (h0 : docs.total_rows ≠ 0)
    (hb : docs.bookmark = none ∨ docs.bookmark = bm) :
    findLoop query bm res att recv mr (.ok docs :: rest)
      = ⟨[], [{ query with bookmark := bm }], 0, .ok res⟩ := by
  have hcond : ¬(docs.bookmark.isSome ∧ docs.bookmark ≠ bm) := by
    rcases hb with hb | hb <;> simp [hb]
  simp [findLoop, h0, hcond]

/-- An accepted page whose send fails (receiver dropped) stops the loop,
still counting the page it could not deliver. -/
theorem findLoop_send_fail {T : Type} (query : FindQuery)
    (bm : Option String) (res att : Nat) (recv : Option Nat) (mr : Nat)
    (docs : DocumentCollection T) (rest : List (FindOutcome T))
    (h0 : docs.total_rows ≠ 0)
    (hb : docs.bookmark.isSome ∧ docs.bookmark ≠ bm)
    (hs : sendOk recv att = false) :
    findLoop query bm res att recv mr (.ok docs :: rest)
      = ⟨[], [{ query with bookmark := bm }], docs.total_rows,
          .ok (res + docs.total_rows)⟩ := by
  simp [findLoop, h0, hb.1, hb.2, hs]

/-- An accepted, delivered page that reaches the budget stops the loop. -/
theorem findLoop_budget_stop {T : Type} (query : FindQuery)
    (bm : Option String) (res att : Nat) (recv : Option Nat) (mr : Nat)
    (docs : DocumentCollection T) (rest : List (FindOutcome T))
    (h0 : docs.total_rows ≠ 0)
    (hb : docs.bookmark.isSome ∧ docs.bookmark ≠ bm)
    (hs : sendOk recv att = true)
    (hm : 0 < mr ∧ res + docs.total_rows ≥ mr) :
    findLoop query bm res att recv mr (.ok docs :: rest)
      = ⟨[docs], [{ query with bookmark := bm }], 0,
          .ok (res + docs.total_rows)⟩ := by
  simp [findLoop, h0, hb.1, hb.2, hs, hm.1, hm.2]

/-- An accepted, delivered page below the budget: the loop continues with
the new bookmark and counters. -/
theorem findLoop_continue {T : Type} (query : FindQuery)
    (bm : Option String) (res att : Nat) (recv : Option Nat) (mr : Nat)
    (docs : DocumentCollection T) (rest : List (FindOutcome T))
    (h0 : docs.total_rows ≠ 0)
    (hb : docs.bookmark.isSome ∧ docs.bookmark ≠ bm)
    (hs : sendOk recv att = true)
    (hm : ¬(0 < mr ∧ res + docs.total_rows ≥ mr)) :
    findLoop query bm res att recv mr (.ok docs :: rest)
      = (let r := findLoop query docs.bookmark (res + docs.total_rows)
            (att + 1) recv mr rest
         ⟨docs :: r.sent, { query with bookmark := bm } :: r.requests,
          r.failedSendRows, r.result⟩) := by
  simp [findLoop, h0, hb.1, hb.2, hs, hm]

/-- Every request the loop issues keeps the query's `limit` (the loop
only ever overwrites the `bookmark` field of its clone). -/
theorem findLoop_requests_limit {T : Type} (script : List (FindOutcome T))
    (query : FindQuery) (bm : Option String) (res att : Nat)
    (recv : Option Nat) (mr : Nat) :
    ∀ q ∈ (findLoop query bm res att recv mr script).requests,
      q.limit = query.limit := by
  induction script generalizing bm res att with
  | nil =>
    intro q hq
    rw [findLoop_nil] at hq
    simp only [List.mem_singleton] at hq
    subst hq; rfl
  | cons o rest ih =>
    intro q hq
    cases o with
    | fail e =>
      rw [findLoop_fail] at hq
      simp only [List.mem_singleton] at hq
      subst hq; rfl
    | ok docs =>
      by_cases h0 : docs.total_rows = 0
      · rw [findLoop_empty_page _ _ _ _ _ _ _ _ h0] at hq
        simp only [List.mem_singleton] at hq
        subst hq; rfl
      by_cases hb : docs.bookmark.isSome ∧ docs.bookmark ≠ bm
      · by_cases hs : sendOk recv att = true
        · by_cases hm : 0 < mr ∧ res + docs.total_rows ≥ mr
          · rw [findLoop_budget_stop _ _ _ _ _ _ _ _ h0 hb hs hm] at hq
            simp only [List.mem_singleton] at hq
            subst hq; rfl
          · rw [findLoop_continue _ _ _ _ _ _ _ _ h0 hb hs hm] at hq
            simp only [List.mem_cons] at hq
            rcases hq with hq | hq
            · subst hq; rfl
            · exact ih _ _ _ q hq
        · rw [findLoop_send_fail _ _ _ _ _ _ _ _ h0 hb
            (Bool.not_eq_true _ ▸ hs)] at hq
          simp only [List.mem_singleton] at hq
          subst hq; rfl
      · have hb' : docs.bookmark = none ∨ docs.bookmark = bm := by
          by_cases hsome : docs.bookmark.isSome
          · right
            by_contra hne
            exact hb ⟨hsome, hne⟩
          · left
            exact Option.not_isSome_iff_eq_none.mp hsome
        rw [findLoop_stale _ _ _ _ _ _ _ _ h0 hb'] at hq
        simp only [List.mem_singleton] at hq
        subst hq; rfl

/-- Every page the loop delivers is one of the script's responses,
forwarded whole. -/
theorem findLoop_sent_whole {T : Type} (script : List (FindOutcome T))
    (query : FindQuery) (bm : Option String) (res att : Nat)
    (recv : Option Nat) (mr : Nat) :
    ∀ p ∈ (findLoop query bm res att recv mr script).sent,
      FindOutcome.ok p ∈ script := by
  induction script generalizing bm res att with
  | nil =>
    intro p hp
    rw [findLoop_nil] at hp
    simp at hp
  | cons o rest ih =>
    intro p hp
    cases o with
    | fail e =>
      rw [findLoop_fail] at hp
      simp at hp
    | ok docs =>
      by_cases h0 : docs.total_rows = 0
      · rw [findLoop_empty_page _ _ _ _ _ _ _ _ h0] at hp
        simp at hp
      by_cases hb : docs.bookmark.isSome ∧ docs.bookmark ≠ bm
      · by_cases hs : sendOk recv att = true
        · by_cases hm : 0 < mr ∧ res + docs.total_rows ≥ mr
          · rw [findLoop_budget_stop _ _ _ _ _ _ _ _ h0 hb hs hm] at hp
            simp only [List.mem_singleton] at hp
            subst hp
            exact List.mem_cons_self _ _
          · rw [findLoop_continue _ _ _ _ _ _ _ _ h0 hb hs hm] at hp
            simp only [List.mem_cons] at hp
            rcases hp with hp | hp
            · subst hp
              exact List.mem_cons_self _ _
            · exact List.mem_cons_of_mem _ (ih _ _ _ p hp)
        · rw [findLoop_send_fail _ _ _ _ _ _ _ _ h0 hb
            (Bool.not_eq_true _ ▸ hs)] at hp
          simp at hp
      · have hb' : docs.bookmark = none ∨ docs.bookmark = bm := by
          by_cases hsome : docs.bookmark.isSome
          · right
            by_contra hne
            exact hb ⟨hsome, hne⟩
          · left
            exact Option.not_isSome_iff_eq_none.mp hsome
        rw [findLoop_stale _ _ _ _ _ _ _ _ h0 hb'] at hp
        simp at hp

/-- With a positive budget, every delivered page except possibly the last
was sent while the cumulative count (on top of `res`) was still below the
budget: the loop never sends past the first page reaching it. -/
theorem findLoop_budget_prefix {T : Type} (script : List (FindOutcome T))
    (query : FindQuery) (bm : Option String) (res att : Nat)
    (recv : Option Nat) (mr : Nat) (hmr : 0 < mr) :
    ∀ i, i + 1 < (findLoop query bm res att recv mr script).sent.length →
      res + ((((findLoop query bm res att recv mr script).sent.take (i + 1)).map
          (·.total_rows)).sum) < mr := by
  induction script generalizing bm res att with
  | nil =>
    intro i hi
    rw [findLoop_nil] at hi ⊢
    simp at hi
  | cons o rest ih =>
    intro i hi
    cases o with
    | fail e =>
      rw [findLoop_fail] at hi
      simp at hi
    | ok docs =>
      by_cases h0 : docs.total_rows = 0
      · rw [findLoop_empty_page _ _ _ _ _ _ _ _ h0] at hi
        simp at hi
      by_cases hb : docs.bookmark.isSome ∧ docs.bookmark ≠ bm
      · by_cases hs : sendOk recv att = true
        · by_cases hm : 0 < mr ∧ res + docs.total_rows ≥ mr
          · rw [findLoop_budget_stop _ _ _ _ _ _ _ _ h0 hb hs hm] at hi
            simp at hi
          · rw [findLoop_continue _ _ _ _ _ _ _ _ h0 hb hs hm] at hi ⊢
            have hlt : res + docs.total_rows < mr := by
              rcases Nat.lt_or_ge (res + docs.total_rows) mr with h | h
              · exact h
              · exact absurd ⟨hmr, h⟩ hm
            cases i with
            | zero =>
              simpa using hlt
            | succ j =>
              have hj := ih docs.bookmark (res + docs.total_rows)
                (att + 1) j (by simpa using Nat.lt_of_succ_lt_succ hi)
              simp only [List.take_succ_cons, List.map_cons, List.sum_cons]
              omega
        · rw [findLoop_send_fail _ _ _ _ _ _ _ _ h0 hb
            (Bool.not_eq_true _ ▸ hs)] at hi
          simp at hi
      · have hb' : docs.bookmark = none ∨ docs.bookmark = bm := by
          by_cases hsome : docs.bookmark.isSome
          · right
            by_contra hne
            exact hb ⟨hsome, hne⟩
          · left
            exact Option.not_isSome_iff_eq_none.mp hsome
        rw [findLoop_stale _ _ _ _ _ _ _ _ h0 hb'] at hi
        simp at hi

/-- Whenever the loop returns `Ok(n)`, `n` is the starting count plus the
rows delivered plus the rows of the page (if any) whose send failed. -/
theorem findLoop_count_law {T : Type} (script : List (FindOutcome T))
    (query : FindQuery) (bm : Option String) (res att : Nat)
    (recv : Option Nat) (mr : Nat) :
    ∀ n, (findLoop query bm res att recv mr script).result = .ok n →
      n = res + deliveredRows (findLoop query bm res att recv mr script)
          + (findLoop query bm res att recv mr script).failedSendRows := by
  induction script generalizing bm res att with
  | nil =>
    intro n hn
    rw [findLoop_nil] at hn
    simp at hn
  | cons o rest ih =>
    intro n hn
    cases o with
    | fail e =>
      rw [findLoop_fail] at hn
      simp at hn
    | ok docs =>
      by_cases h0 : docs.total_rows = 0
      · rw [findLoop_empty_page _ _ _ _ _ _ _ _ h0] at hn ⊢
        simp only [BatchResult.ok.injEq] at hn
        subst hn
        simp [deliveredRows]
      by_cases hb : docs.bookmark.isSome ∧ docs.bookmark ≠ bm
      · by_cases hs : sendOk recv att = true
        · by_cases hm : 0 < mr ∧ res + docs.total_rows ≥ mr
          · rw [findLoop_budget_stop _ _ _ _ _ _ _ _ h0 hb hs hm] at hn ⊢
            simp only [BatchResult.ok.injEq] at hn
            subst hn
            simp [deliveredRows]
          · rw [findLoop_continue _ _ _ _ _ _ _ _ h0 hb hs hm] at hn ⊢
            have := ih docs.bookmark (res + docs.total_rows) (att + 1) n hn
            simp only [deliveredRows, List.map_cons, List.sum_cons] at this ⊢
            omega
        · rw [findLoop_send_fail _ _ _ _ _ _ _ _ h0 hb
            (Bool.not_eq_true _ ▸ hs)] at hn ⊢
          simp only [BatchResult.ok.injEq] at hn
          subst hn
          simp [deliveredRows]
      · have hb' : docs.bookmark = none ∨ docs.bookmark = bm := by
          by_cases hsome : docs.bookmark.isSome
          · right
            by_contra hne
            exact hb ⟨hsome, hne⟩
          · left
            exact Option.not_isSome_iff_eq_none.mp hsome
        rw [findLoop_stale _ _ _ _ _ _ _ _ h0 hb'] at hn ⊢
        simp only [BatchResult.ok.injEq] at hn
        subst hn
        simp [deliveredRows]

/-! ## Claims about the changes stream -/

/-- C1: in the ReadingLines state, every line that decodes to a Change
event makes the stream yield exactly that event, with `last_seq` equal to
the event's seq right after its delivery; empty heartbeat lines are
skipped without yielding an item; hence N change lines yield the N events
in line order. -/
theorem changes_yielded_in_order (infinite : Bool) (s0 : Option Seq)
    (body : List ReadItem) (h : ∀ it ∈ body, heartbeatOrChange it) :
    (runReading infinite s0 body []).events
      = (changeEvents body).map (fun ev => (ev, some ev.seq)) := by
  obtain ⟨hev, hnext⟩ := readBody_heartbeat_change infinite s0 body h
  simp [runReading, hnext, hev, runIdle]

/-- Witness for C1: two change lines interleaved with heartbeats yield
exactly the two events in order, each delivered with its own seq as
`last_seq`. -/
theorem changes_yielded_in_order_witness :
    (runReading false none
        [.ok .empty, .ok (.parsed (.change sampleEvent1)), .ok .empty,
         .ok (.parsed (.change sampleEvent2))] []).events
      = [(sampleEvent1, some "seq-1"), (sampleEvent2, some "seq-2")] := by
  have := changes_yielded_in_order false none
    [.ok .empty, .ok (.parsed (.change sampleEvent1)), .ok .empty,
     .ok (.parsed (.change sampleEvent2))]
    (by
      intro it hit
      simp only [List.mem_cons, List.not_mem_nil, or_false] at hit
      rcases hit with h | h | h | h <;> subst h
      · exact Or.inl rfl
      · exact Or.inr ⟨sampleEvent1, rfl⟩
      · exact Or.inl rfl
      · exact Or.inr ⟨sampleEvent2, rfl⟩)
  rw [this]
  rfl

/-- C2: while reading lines, a reqwest idle-timeout in infinite mode
returns the stream to Idle and re-issues the request, so a later real
event is still delivered; the same idle-timeout with infinite mode off,
any other reqwest read error in either mode, and any non-reqwest I/O read
error are returned as terminal errors. -/
theorem idle_timeout_absorption :
    (∀ (s : Option Seq) (e : ReqwestError) (rest : List ReadItem)
        (script : List RequestOutcome), e.isTimeout = true →
      runReading true s (.err (.reqwest e) :: rest) script
        = runIdle true s script) ∧
    (∀ (s : Option Seq) (rest : List ReadItem) (ev : ChangeEvent),
      (runReading true s (.err (.reqwest idleTimeout) :: rest)
          [.resp 200 [.ok (.parsed (.change ev))]]).events
        = [(ev, some ev.seq)]) ∧
    (∀ (s : Option Seq) (e : ReqwestError) (rest : List ReadItem)
        (script : List RequestOutcome), e.isTimeout = true →
      (runReading false s (.err (.reqwest e) :: rest) script).term
        = .error (CouchError.new e.msg (e.status.getD 500))) ∧
    (∀ (infinite : Bool) (s : Option Seq) (e : ReqwestError)
        (rest : List ReadItem) (script : List RequestOutcome),
        e.isTimeout = false →
      (runReading infinite s (.err (.reqwest e) :: rest) script).term
        = .error (CouchError.new e.msg (e.status.getD 500))) ∧
    (∀ (infinite : Bool) (s : Option Seq) (msg : String)
        (rest : List ReadItem) (script : List RequestOutcome),
      (runReading infinite s (.err (.other msg) :: rest) script).term
        = .error (CouchError.new msg 500)) := by
  refine ⟨?_, ?_, ?_, ?_, ?_⟩
  · intro s e rest script h
    simp [runReading, readBody, h]
  · intro s rest ev
    simp [runReading, readBody, idleTimeout, runIdle, isSuccess]
  · intro s e rest script h
    simp [runReading, readBody, h]
  · intro infinite s e rest script h
    simp [runReading, readBody, h]
  · intro infinite s msg rest script
    simp [runReading, readBody]

/-- Witness for C2: the absorbed timeout at a concrete state, the later
event delivered, and the three fatal variants at concrete errors. -/
theorem idle_timeout_absorption_witness :
    runReading true (some "seq-0") [.err (.reqwest idleTimeout)] []
        = runIdle true (some "seq-0") [] ∧
    (runReading true (some "seq-0") [.err (.reqwest idleTimeout)]
        [.resp 200 [.ok (.parsed (.change sampleEvent1))]]).events
      = [(sampleEvent1, some "seq-1")] ∧
    (runReading false (some "seq-0") [.err (.reqwest idleTimeout)] []).term
      = .error (CouchError.new "operation timed out" 500) ∧
    (runReading true (some "seq-0")
        [.err (.reqwest ⟨false, some 502, "connection reset"⟩)] []).term
      = .error (CouchError.new "connection reset" 502) ∧
    (runReading false (some "seq-0") [.err (.other "invalid utf-8")] []).term
      = .error (CouchError.new "invalid utf-8" 500) := by
  refine ⟨?_, ?_, ?_, ?_, ?_⟩
  · exact idle_timeout_absorption.1 (some "seq-0") idleTimeout [] [] rfl
  · exact idle_timeout_absorption.2.1 (some "seq-0") [] sampleEvent1
  · exact idle_timeout_absorption.2.2.1 (some "seq-0") idleTimeout [] [] rfl
  · exact idle_timeout_absorption.2.2.2.1 true (some "seq-0")
      ⟨false, some 502, "connection reset"⟩ [] [] rfl
  · exact idle_timeout_absorption.2.2.2.2 false (some "seq-0")
      "invalid utf-8" [] []

/-- C3: a line decoding to Finished sets `last_seq` to the event's
`last_seq`; with infinite mode off the stream ends there (end-of-stream,
no events follow), with infinite mode on it returns to Idle and drives a
new request instead of terminating. -/
theorem finished_event_behaviour (infinite : Bool) (s : Option Seq)
    (ev : FinishedEvent) (rest : List ReadItem)
    (script : List RequestOutcome) :
    runReading infinite s (.ok (.parsed (.finished ev)) :: rest) script
      = if infinite then runIdle infinite (some ev.last_seq) script
        else ⟨[], [], some ev.last_seq, .done⟩ := by
  cases infinite <;> simp [runReading, readBody]

/-- C9 (code bug): in AwaitingResponse a standard non-success status is
returned as a terminal error carrying that status, but a non-standard
non-success status such as 599 has no canonical reason, so
`res.status().canonical_reason().unwrap()` panics instead of returning
the promised error. -/
theorem nonstandard_status_panics :
    isSuccess 599 = false ∧ canonicalReason 599 = none ∧
    (runIdle false none [.resp 599 []]).term = .panicked ∧
    (runIdle false none [.resp 404 []]).term
      = .error (CouchError.new "Not Found" 404) := by
  refine ⟨rfl, rfl, rfl, rfl⟩

/-! ## Claims about the batched find loop -/

/-- C4: with page size 1000 and no budget, responses of 1000, 1000 and
437 rows with fresh bookmarks followed by a zero-row response make
exactly 3 pages go into the channel, a 4th request consume the empty
page, and the call return Ok(2437). -/
theorem find_batched_exhaustion :
    (find_batched baseQuery none 1000 0
        [.ok (pageOf 1000 (some "b1")), .ok (pageOf 1000 (some "b2")),
         .ok (pageOf 437 (some "b3")), .ok (pageOf 0 (some "b4"))]).sent.map
        (·.total_rows) = [1000, 1000, 437] ∧
    (find_batched baseQuery none 1000 0
        [.ok (pageOf 1000 (some "b1")), .ok (pageOf 1000 (some "b2")),
         .ok (pageOf 437 (some "b3")), .ok (pageOf 0 (some "b4"))]).result
      = .ok 2437 ∧
    (find_batched baseQuery none 1000 0
        [.ok (pageOf 1000 (some "b1")), .ok (pageOf 1000 (some "b2")),
         .ok (pageOf 437 (some "b3")), .ok (pageOf 0 (some "b4"))]).requests.length
      = 4 := by
  refine ⟨rfl, rfl, rfl⟩

/-- C5: every issued request carries `limit` equal to the effective page
size, every delivered page is a response forwarded whole (never
truncated), no page is sent after the cumulative delivered count has
reached a positive budget, and with 1000-row pages and budget 1500 the
run stops after the second page having delivered 2000 rows. -/
theorem find_batched_budget_rounding :
    (∀ (T : Type) (query : FindQuery) (recv : Option Nat) (bs mr : Nat)
        (script : List (FindOutcome T)),
      (∀ q ∈ (find_batched query recv bs mr script).requests,
        q.limit = some (if bs > 0 then bs else 1000)) ∧
      (∀ p ∈ (find_batched query recv bs mr script).sent,
        FindOutcome.ok p ∈ script) ∧
      (0 < mr → ∀ i,
        i + 1 < (find_batched query recv bs mr script).sent.length →
        ((((find_batched query recv bs mr script).sent.take (i + 1)).map
            (·.total_rows)).sum) < mr)) ∧
    ((find_batched baseQuery none 1000 1500
        [.ok (pageOf 1000 (some "b1")), .ok (pageOf 1000 (some "b2")),
         .ok (pageOf 1000 (some "b3"))]).sent.map (·.total_rows)
        = [1000, 1000] ∧
     (find_batched baseQuery none 1000 1500
        [.ok (pageOf 1000 (some "b1")), .ok (pageOf 1000 (some "b2")),
         .ok (pageOf 1000 (some "b3"))]).result = .ok 2000 ∧
     (find_batched baseQuery none 1000 1500
        [.ok (pageOf 1000 (some "b1")), .ok (pageOf 1000 (some "b2")),
         .ok (pageOf 1000 (some "b3"))]).requests.length = 2) := by
  constructor
  · intro T query recv bs mr script
    refine ⟨?_, ?_, ?_⟩
    · intro q hq
      have := findLoop_requests_limit script
        { query with limit := some (if bs > 0 then bs else 1000) }
        none 0 0 recv mr q hq
      simpa using this
    · intro p hp
      exact findLoop_sent_whole script _ none 0 0 recv mr p hp
    · intro hmr i hi
      have := findLoop_budget_prefix script
        { query with limit := some (if bs > 0 then bs else 1000) }
        none 0 0 recv mr hmr i hi
      simpa using this
  · exact ⟨rfl, rfl, rfl⟩

/-- Witness for C5: on a concrete run with page size 7 the single issued
request carries `limit = Some 7`. -/
theorem find_batched_budget_rounding_witness :
    ({ baseQuery with limit := some 7, bookmark := none }
        ∈ (find_batched (T := Nat) baseQuery none 7 0 []).requests) ∧
    FindQuery.limit { baseQuery with limit := some 7, bookmark := none }
      = some (if 7 > 0 then 7 else 1000) :=
  ⟨by decide,
   (find_batched_budget_rounding.1 Nat baseQuery none 7 0 []).1
     { baseQuery with limit := some 7, bookmark := none } (by decide)⟩

/-- C6: a response with rows but with an absent bookmark, or one equal to
the bookmark just sent, stops the loop immediately: Ok result, nothing
sent, and no request beyond the one already answered. -/
theorem stale_bookmark_stops {T : Type} (query : FindQuery)
    (bm : Option String) (res att : Nat) (recv : Option Nat) (mr : Nat)
    (page : DocumentCollection T) (rest : List (FindOutcome T))
    (h0 : page.total_rows ≠ 0)
    (hb : page.bookmark = none ∨ page.bookmark = bm) :
    (findLoop query bm res att recv mr (.ok page :: rest)).result = .ok res ∧
    (findLoop query bm res att recv mr (.ok page :: rest)).sent = [] ∧
    (findLoop query bm res att recv mr (.ok page :: rest)).requests
      = [{ query with bookmark := bm }] := by
  rw [findLoop_stale _ _ _ _ _ _ _ _ h0 hb]
  exact ⟨rfl, rfl, rfl⟩

/-- Witness for C6: a 25-row page re-using the just-sent bookmark "b1"
stops the loop with Ok(1000) (the prior count), nothing sent, and only
the already-answered request issued. -/
theorem stale_bookmark_stops_witness :
    (findLoop baseQuery (some "b1") 1000 1 none 0
        [.ok (pageOf 25 (some "b1"))]).result = .ok 1000 ∧
    (findLoop baseQuery (some "b1") 1000 1 none 0
        [.ok (pageOf 25 (some "b1"))]).sent = [] ∧
    (findLoop baseQuery (some "b1") 1000 1 none 0
        [.ok (pageOf 25 (some "b1"))]).requests
      = [{ baseQuery with bookmark := some "b1" }] :=
  stale_bookmark_stops baseQuery (some "b1") 1000 1 none 0
    (pageOf 25 (some "b1")) [] (by decide) (Or.inr rfl)

/-- C7: a failed fetch propagates the error to the caller and sends
nothing for the failed request; in particular, with the second request
failing, the error is returned after exactly one page was delivered by
two issued requests. -/
theorem fetch_error_aborts :
    (∀ (T : Type) (query : FindQuery) (bm : Option String) (res att : Nat)
        (recv : Option Nat) (mr : Nat) (e : CouchError)
        (rest : List (FindOutcome T)),
      (findLoop query bm res att recv mr (.fail e :: rest)).result = .err e ∧
      (findLoop query bm res att recv mr (.fail e :: rest)).sent = []) ∧
    (∀ (T : Type) (query : FindQuery) (page : DocumentCollection T)
        (b : String) (e : CouchError),
      page.total_rows ≠ 0 → page.bookmark = some b →
      (find_batched query none 0 0 [.ok page, .fail e]).result = .err e ∧
      (find_batched query none 0 0 [.ok page, .fail e]).sent = [page] ∧
      (find_batched query none 0 0 [.ok page, .fail e]).requests.length
        = 2) := by
  constructor
  · intro T query bm res att recv mr e rest
    rw [findLoop_fail]
    exact ⟨rfl, rfl⟩
  · intro T query page b e h0 hbk
    have hb : page.bookmark.isSome ∧ page.bookmark ≠ none := by simp [hbk]
    simp only [find_batched]
    rw [findLoop_continue
        { query with limit := some (if 0 > 0 then 0 else 1000) }
        none 0 0 none 0 page [.fail e] h0 hb (by decide) (by simp),
      findLoop_fail]
    exact ⟨rfl, rfl, rfl⟩

/-- Witness for C7: a 12-row first page followed by a failing fetch
returns the error with exactly that one page delivered. -/
theorem fetch_error_aborts_witness :
    ((findLoop baseQuery none 0 0 none 0
        ((FindOutcome.fail (T := Nat) (CouchError.new "boom" 500)) :: [])).result
      = .err (CouchError.new "boom" 500)) ∧
    ((find_batched baseQuery none 0 0
        [.ok (pageOf 12 (some "b1")),
         .fail (CouchError.new "gateway timeout" 504)]).result
      = .err (CouchError.new "gateway timeout" 504) ∧
     (find_batched baseQuery none 0 0
        [.ok (pageOf 12 (some "b1")),
         .fail (CouchError.new "gateway timeout" 504)]).sent
      = [pageOf 12 (some "b1")] ∧
     (find_batched baseQuery none 0 0
        [.ok (pageOf 12 (some "b1")),
         .fail (CouchError.new "gateway timeout" 504)]).requests.length
      = 2) :=
  ⟨(fetch_error_aborts.1 Nat baseQuery none 0 0 none 0
      (CouchError.new "boom" 500) []).1,
   fetch_error_aborts.2 Nat baseQuery (pageOf 12 (some "b1")) "b1"
     (CouchError.new "gateway timeout" 504) (by decide) rfl⟩

/-- C8 counterexample: with the receiver dropped before the first send, a
5-row page is fetched and counted, the send fails, and the call returns
Ok(5) although zero rows were delivered through the channel — the
returned count does not equal the rows delivered. -/
theorem count_vs_delivered_cex :
    (find_batched baseQuery (some 0) 0 0
        [.ok (pageOf 5 (some "b1"))]).result = .ok 5 ∧
    deliveredRows (find_batched baseQuery (some 0) 0 0
        [.ok (pageOf 5 (some "b1"))]) = 0 ∧
    (find_batched baseQuery (some 0) 0 0
        [.ok (pageOf 5 (some "b1"))]).result
      ≠ .ok (deliveredRows (find_batched baseQuery (some 0) 0 0
        [.ok (pageOf 5 (some "b1"))])) := by
  refine ⟨rfl, rfl, by decide⟩

/-- C8 amended: a send failing because the receiver was dropped stops
pagination silently and the call still returns Ok, but the returned
count is the rows delivered plus the rows of the page whose send failed
(equal to the rows delivered exactly when every send succeeded). -/
theorem count_includes_failed_send :
    (∀ (T : Type) (query : FindQuery) (bm : Option String) (res att : Nat)
        (recv : Option Nat) (mr : Nat) (page : DocumentCollection T)
        (rest : List (FindOutcome T)),
      page.total_rows ≠ 0 →
      page.bookmark.isSome ∧ page.bookmark ≠ bm →
      sendOk recv att = false →
      (findLoop query bm res att recv mr (.ok page :: rest)).result
          = .ok (res + page.total_rows) ∧
      (findLoop query bm res att recv mr (.ok page :: rest)).sent = []) ∧
    (∀ (T : Type) (query : FindQuery) (recv : Option Nat) (bs mr : Nat)
        (script : List (FindOutcome T)) (n : Nat),
      (find_batched query recv bs mr script).result = .ok n →
      n = deliveredRows (find_batched query recv bs mr script)
          + (find_batched query recv bs mr script).failedSendRows) := by
  constructor
  · intro T query bm res att recv mr page rest h0 hb hs
    rw [findLoop_send_fail _ _ _ _ _ _ _ _ h0 hb hs]
    exact ⟨rfl, rfl⟩
  · intro T query recv bs mr script n hn
    have := findLoop_count_law script
      { query with limit := some (if bs > 0 then bs else 1000) }
      none 0 0 recv mr n hn
    simpa using this

/-- Witness for C8 amended: the dropped-receiver stop at a concrete
state, and the count law on the concrete cancelled run Ok(5) = 0
delivered + 5 from the failed send. -/
theorem count_includes_failed_send_witness :
    ((findLoop baseQuery none 0 0 (some 0) 0
        [.ok (pageOf 5 (some "b1"))]).result = .ok 5 ∧
     (findLoop baseQuery none 0 0 (some 0) 0
        [.ok (pageOf 5 (some "b1"))]).sent = []) ∧
    (5 : Nat) = deliveredRows (find_batched baseQuery (some 0) 0 0
        [.ok (pageOf 5 (some "b1"))])
      + (find_batched baseQuery (some 0) 0 0
        [.ok (pageOf 5 (some "b1"))]).failedSendRows :=
  ⟨(count_includes_failed_send.1 Nat baseQuery none 0 0 (some 0) 0
      (pageOf 5 (some "b1")) [] (by decide) (by decide) rfl),
   count_includes_failed_send.2 Nat baseQuery (some 0) 0 0
     [.ok (pageOf 5 (some "b1"))] 5 rfl⟩

/-- C10: a response with rows whose bookmark is absent or equal to the
just-sent one is discarded whole — its rows are neither sent into the
channel nor counted in the returned total. -/
theorem stale_page_discarded {T : Type} (query : FindQuery)
    (bm : Option String) (res att : Nat) (recv : Option Nat) (mr : Nat)
    (page : DocumentCollection T) (rest : List (FindOutcome T))
    (h0 : page.total_rows ≠ 0)
    (hb : page.bookmark = none ∨ page.bookmark = bm) :
    (findLoop query bm res att recv mr (.ok page :: rest)).sent = [] ∧
    deliveredRows (findLoop query bm res att recv mr (.ok page :: rest))
      = 0 ∧
    (findLoop query bm res att recv mr (.ok page :: rest)).result
      = .ok res := by
  rw [findLoop_stale _ _ _ _ _ _ _ _ h0 hb]
  exact ⟨rfl, rfl, rfl⟩

/-- Witness for C10: a fetched 437-row page carrying no bookmark is
dropped: nothing sent, zero rows delivered, the prior count 2000
returned unchanged. -/
theorem stale_page_discarded_witness :
    (findLoop baseQuery (some "b2") 2000 2 none 0
        [.ok (pageOf 437 none)]).sent = [] ∧
    deliveredRows (findLoop baseQuery (some "b2") 2000 2 none 0
        [.ok (pageOf 437 none)]) = 0 ∧
    (findLoop baseQuery (some "b2") 2000 2 none 0
        [.ok (pageOf 437 none)]).result = .ok 2000 :=
  stale_page_discarded baseQuery (some "b2") 2000 2 none 0
    (pageOf 437 none) [] (by decide) (Or.inl rfl)

end CouchRs
